/-
Verification of the session acquisition and caching pipeline of ApexAnalyst
(src/backend/app/services/session_service.py) against its specification.

The development shallowly embeds `SessionManager` and its helper routines:
the cache maps become association lists, fetch outcomes of the external
FastF1 library become explicit Boolean oracles, and the background upgrade
task is modelled twice — once as an atomic step in a sequential operation
model, and once split at its long-running fetch into a fine-grained
interleaved model, which is needed for the concurrency claims.
-/
import Mathlib

set_option maxRecDepth 100000

namespace ApexAnalyst

/-! ## MD5 (hashlib.md5), used by `SessionManager._generate_session_id` -/

/-- The 64 MD5 round constants `floor(|sin(i+1)| * 2^32)`. -/
def md5K : List Nat :=
  [3614090360, 3905402710, 606105819, 3250441966, 4118548399, 1200080426,
   2821735955, 4249261313, 1770035416, 2336552879, 4294925233, 2304563134,
   1804603682, 4254626195, 2792965006, 1236535329, 4129170786, 3225465664,
   643717713, 3921069994, 3593408605, 38016083, 3634488961, 3889429448,
   568446438, 3275163606, 4107603335, 1163531501, 2850285829, 4243563512,
   1735328473, 2368359562, 4294588738, 2272392833, 1839030562, 4259657740,
   2763975236, 1272893353, 4139469664, 3200236656, 681279174, 3936430074,
   3572445317, 76029189, 3654602809, 3873151461, 530742520, 3299628645,
   4096336452, 1126891415, 2878612391, 4237533241, 1700485571, 2399980690,
   4293915773, 2240044497, 1873313359, 4264355552, 2734768916, 1309151649,
   4149444226, 3174756917, 718787259, 3951481745]

/-- The 64 per-round left-rotation amounts. -/
def md5S : List Nat :=
  [7, 12, 17, 22, 7, 12, 17, 22, 7, 12, 17, 22, 7, 12, 17, 22,
   5, 9, 14, 20, 5, 9, 14, 20, 5, 9, 14, 20, 5, 9, 14, 20,
   4, 11, 16, 23, 4, 11, 16, 23, 4, 11, 16, 23, 4, 11, 16, 23,
   6, 10, 15, 21, 6, 10, 15, 21, 6, 10, 15, 21, 6, 10, 15, 21]

/-- 2^32, the word modulus. -/
def m32 : Nat := 4294967296

/-- Left-rotation of a 32-bit word. -/
def rotl32 (x c : Nat) : Nat :=
  Nat.lor ((x * 2 ^ c) % m32) (x / 2 ^ (32 - c))

/-- Bitwise complement on the low 32 bits. -/
def compl32 (x : Nat) : Nat := Nat.xor x 4294967295

/-- The MD5 nonlinear round function, selected by round index. -/
def md5F (i b c d : Nat) : Nat :=
  if i < 16 then Nat.lor (Nat.land b c) (Nat.land (compl32 b) d)
  else if i < 32 then Nat.lor (Nat.land d b) (Nat.land (compl32 d) c)
  else if i < 48 then Nat.xor (Nat.xor b c) d
  else Nat.xor c (Nat.lor b (compl32 d))

/-- The MD5 message-word index schedule. -/
def md5G (i : Nat) : Nat :=
  if i < 16 then i
  else if i < 32 then (5 * i + 1) % 16
  else if i < 48 then (3 * i + 5) % 16
  else (7 * i) % 16

/-- One MD5 round: `w` the 16 message words of the block, `i` the round. -/
def md5Round (w : List Nat) (i : Nat) : Nat × Nat × Nat × Nat → Nat × Nat × Nat × Nat :=
  fun st =>
    let a := st.1; let b := st.2.1; let c := st.2.2.1; let d := st.2.2.2
    let f := (md5F i b c d + a + md5K.getD i 0 + w.getD (md5G i) 0) % m32
    (d, (b + rotl32 f (md5S.getD i 0)) % m32, b, c)

/-- Process one 64-byte block given as 16 little-endian words. -/
def md5Block (st : Nat × Nat × Nat × Nat) (w : List Nat) : Nat × Nat × Nat × Nat :=
  let r := (List.range 64).foldl (fun acc i => md5Round w i acc) st
  ((st.1 + r.1) % m32, (st.2.1 + r.2.1) % m32,
   (st.2.2.1 + r.2.2.1) % m32, (st.2.2.2 + r.2.2.2) % m32)

/-- Group a byte list into 32-bit little-endian words. -/
def toWords : List Nat → List Nat
  | b0 :: b1 :: b2 :: b3 :: rest =>
      (b0 + 256 * b1 + 65536 * b2 + 16777216 * b3) :: toWords rest
  | _ => []

/-- `n` little-endian bytes of `v`. -/
def leBytes : Nat → Nat → List Nat
  | 0, _ => []
  | n + 1, v => v % 256 :: leBytes n (v / 256)

/-- MD5 padding: append 0x80, zeros to 56 mod 64, then the 64-bit bit length. -/
def padBytes (msg : List Nat) : List Nat :=
  let len := msg.length
  let padZeros := (119 - len % 64) % 64
  msg ++ [128] ++ List.replicate padZeros 0 ++ leBytes 8 ((len * 8) % 2 ^ 64)

/-- Split a padded byte list into 64-byte blocks (fuel-based recursion). -/
def splitBlocksGo : Nat → List Nat → List (List Nat)
  | _, [] => []
  | 0, _ => []
  | fuel + 1, bytes => bytes.take 64 :: splitBlocksGo fuel (bytes.drop 64)

/-- Split a padded byte list into 64-byte blocks. -/
def splitBlocks (bytes : List Nat) : List (List Nat) :=
  splitBlocksGo bytes.length bytes

/-- MD5 digest of a byte list, as 16 bytes. -/
def md5Digest (msg : List Nat) : List Nat :=
  let blocks := splitBlocks (padBytes msg)
  let r := blocks.foldl (fun st blk => md5Block st (toWords blk))
    (1732584193, 4023233417, 2562383102, 271733878)
  leBytes 4 r.1 ++ leBytes 4 r.2.1 ++ leBytes 4 r.2.2.1 ++ leBytes 4 r.2.2.2

/-- UTF-8 encoding of one unicode scalar value (Python `str.encode()`). -/
def utf8Bytes (n : Nat) : List Nat :=
  if n < 128 then [n]
  else if n < 2048 then [192 + n / 64, 128 + n % 64]
  else if n < 65536 then [224 + n / 4096, 128 + (n / 64) % 64, 128 + n % 64]
  else [240 + n / 262144, 128 + (n / 4096) % 64, 128 + (n / 64) % 64, 128 + n % 64]

/-- UTF-8 byte sequence of a string, as Python `s.encode()` produces. -/
def strBytes (s : String) : List Nat :=
  (s.data.map (fun c => utf8Bytes c.toNat)).flatten

/-- Lowercase hexadecimal digit. -/
def hexChar (n : Nat) : Char :=
  if n < 10 then Char.ofNat (48 + n) else Char.ofNat (87 + n)

/-- Two-character lowercase hex rendering of one byte. -/
def byteHex (b : Nat) : List Char :=
  [hexChar (b / 16), hexChar (b % 16)]

/-- `hashlib.md5(s.encode()).hexdigest()`. -/
def md5Hex (s : String) : String :=
  String.mk (((md5Digest (strBytes s)).map byteHex).flatten)

/-! ## Association-list maps for the class-level dictionaries -/

/-- Dictionary lookup. -/
def lookupS {α : Type} (k : String) : List (String × α) → Option α
  | [] => none
  | (k1, v) :: rest => if k1 = k then some v else lookupS k rest

/-- Dictionary key removal (`del` / `.pop`). -/
def eraseS {α : Type} (k : String) (m : List (String × α)) : List (String × α) :=
  m.filter (fun p => !(p.1 == k))

/-- Dictionary assignment `m[k] = v`. -/
def setS {α : Type} (k : String) (v : α) (m : List (String × α)) : List (String × α) :=
  (k, v) :: eraseS k m

/-! ## Model of `SessionManager` (src/backend/app/services/session_service.py)

The cache maps become association lists; fastf1 session objects become
opaque `Nat` handles allocated from a counter; the outcome of each call
into the external FastF1 fetcher is an explicit Boolean oracle (`true` =
the call returned without raising). Wall-clock `loaded_at` timestamps are
not modelled; no claim mentions them. -/

/-- The `LoadingState` enum of the source. -/
inductive LoadingState
  | pending
  | loading_basic
  | loading_laps
  | loading_telemetry
  | ready
  | error
deriving DecidableEq

/-- One `_session_metadata` entry (without the wall-clock `loaded_at`). -/
structure SessionMeta where
  year : Int
  grandPrix : String
  sessionName : String
  full_load : Bool
deriving DecidableEq

/-- `metadata.get(session_id, {})`: an absent metadata dict reads as
`full_load = False`, the only key the source ever reads from the default. -/
def emptyMeta : SessionMeta := ⟨0, "", "", false⟩

/-- Status of a `concurrent.futures` future stored in `_loading_futures`. -/
inductive FutureStatus
  | pending
  | done
deriving DecidableEq

/-- The class-level dictionaries of `SessionManager` plus the handle
allocator. -/
structure CState where
  sessions : List (String × Nat)
  metadata : List (String × SessionMeta)
  loadingStates : List (String × LoadingState)
  loadingFutures : List (String × FutureStatus)
  nextHandle : Nat
deriving DecidableEq

/-- The state at process start: all four dictionaries empty. -/
def initState : CState := ⟨[], [], [], [], 0⟩

/-- A call into the external Dataset Fetcher (`session.load`): `reduced` is
a quick load (`telemetry=False`), `full` one that includes telemetry. -/
inductive FetchEvent
  | reduced (sid : String)
  | full (sid : String)
deriving DecidableEq

/-- The f-string key `f"{year}_{grand_prix}_{session_name}"`. -/
def sessionKey (year : Int) (grandPrix sessionName : String) : String :=
  toString year ++ "_" ++ grandPrix ++ "_" ++ sessionName

/-- `SessionManager._generate_session_id`. -/
def generate_session_id (year : Int) (grandPrix sessionName : String) : String :=
  (md5Hex (sessionKey year grandPrix sessionName)).take 12

/-- `SessionManager.get_loading_state`. -/
def get_loading_state (sid : String) (s : CState) : LoadingState :=
  (lookupS sid s.loadingStates).getD LoadingState.pending

/-- `self._session_metadata.get(session_id, {}).get("full_load", False)`. -/
def fullLoadOf (sid : String) (s : CState) : Bool :=
  ((lookupS sid s.metadata).getD emptyMeta).full_load

/-- `SessionManager._load_session_sync`, run atomically. `ok` is the outcome
of the `fastf1.get_session` / `session.load` calls. On success the loaded
session object is a fresh handle and the record's maps are written; on
failure only the loading state is written (`ERROR`) and the exception
propagates — no session or metadata entry is created. -/
def load_session_sync (year : Int) (grandPrix sessionName sid : String)
    (quick : Bool) (ok : Bool) (s : CState) :
    Except Unit Nat × CState × List FetchEvent :=
  let ev := if quick then FetchEvent.reduced sid else FetchEvent.full sid
  if ok then
    (Except.ok s.nextHandle,
     { s with
        sessions := setS sid s.nextHandle s.sessions
        metadata := setS sid ⟨year, grandPrix, sessionName, !quick⟩ s.metadata
        loadingStates := setS sid LoadingState.ready s.loadingStates
        nextHandle := s.nextHandle + 1 },
     [ev])
  else
    (Except.error (),
     { s with loadingStates := setS sid LoadingState.error s.loadingStates },
     [ev])

/-- `SessionManager._upgrade_session_sync`, run atomically. `ok` is the
outcome of the telemetry `session.load` call. The source catches any
exception of that call, sets the loading state back to READY and does not
re-raise, leaving `full_load` false. -/
def upgrade_session_sync (sid : String) (ok : Bool) (s : CState) :
    CState × List FetchEvent :=
  match lookupS sid s.sessions with
  | none => (s, [])
  | some _ =>
    let meta := (lookupS sid s.metadata).getD emptyMeta
    if meta.full_load then (s, [])
    else if ok then
      ({ s with
          metadata := setS sid { meta with full_load := true } s.metadata
          loadingStates := setS sid LoadingState.ready s.loadingStates },
       [FetchEvent.full sid])
    else
      ({ s with loadingStates := setS sid LoadingState.ready s.loadingStates },
       [FetchEvent.full sid])

/-- Body of `SessionManager.get_session` after `session_id` has been
computed (its first statement). On a miss it loads synchronously and, in
quick mode, submits the background upgrade to the executor
(`FutureStatus.pending`; the submitted body runs later, `Op.bg`). On a hit
it returns the cached handle and performs no fetch. -/
def get_session_core (sid : String) (year : Int) (grandPrix sessionName : String)
    (quick : Bool) (ok : Bool) (s : CState) :
    Except Unit (String × Nat) × CState × List FetchEvent :=
  match lookupS sid s.sessions with
  | some h => (Except.ok (sid, h), s, [])
  | none =>
    match load_session_sync year grandPrix sessionName sid quick ok s with
    | (Except.error e, s1, evs) => (Except.error e, s1, evs)
    | (Except.ok h, s1, evs) =>
      if quick then
        (Except.ok (sid, h),
         { s1 with loadingFutures := setS sid FutureStatus.pending s1.loadingFutures },
         evs)
      else
        (Except.ok (sid, h), s1, evs)

/-- `SessionManager.get_session` (the spec's `acquire`): compute the
session id, then run the body. -/
def get_session (year : Int) (grandPrix sessionName : String)
    (quick : Bool) (ok : Bool) (s : CState) :
    Except Unit (String × Nat) × CState × List FetchEvent :=
  get_session_core (generate_session_id year grandPrix sessionName)
    year grandPrix sessionName quick ok s

/-- `SessionManager.get_session_by_id` (the spec's `get`). -/
def get_session_by_id (sid : String) (s : CState) : Option Nat :=
  lookupS sid s.sessions

/-- Environment choices for one `ensure_telemetry_loaded` call: whether a
pending future finishes within the 120-second wait, the outcome of the
upgrade body the worker runs while being waited on, and the outcome of a
fallback upgrade run synchronously in the calling context. -/
structure EnsureOracle where
  completesInTime : Bool
  bgOk : Bool
  syncOk : Bool
deriving DecidableEq

/-- `SessionManager.ensure_telemetry_loaded` (the spec's
`ensureFullyLoaded`), sequential model. Waiting on a pending future
executes the submitted `_upgrade_session_sync` body (outcome `o.bgOk`);
`future.result` then returns without raising even when that upgrade failed,
because `_upgrade_session_sync` swallows its exception — so this branch
returns `True` unconditionally, as does the branch where the future is
already done. Only when `future.result` raises (modelled: the wait times
out, `o.completesInTime = false`) does the source fall back to running
`_upgrade_session_sync` synchronously (outcome `o.syncOk`) and return the
resulting `full_load` flag; the future stays pending. With no future at
all, the upgrade runs synchronously and the resulting flag is returned. -/
def ensure_telemetry_loaded (sid : String) (o : EnsureOracle) (s : CState) :
    Bool × CState × List FetchEvent :=
  if fullLoadOf sid s then (true, s, [])
  else
    match lookupS sid s.loadingFutures with
    | some FutureStatus.done => (true, s, [])
    | some FutureStatus.pending =>
      if o.completesInTime then
        let r := upgrade_session_sync sid o.bgOk s
        (true,
         { r.1 with loadingFutures := setS sid FutureStatus.done r.1.loadingFutures },
         r.2)
      else
        let r := upgrade_session_sync sid o.syncOk s
        (fullLoadOf sid r.1, r.1, r.2)
    | none =>
      let r := upgrade_session_sync sid o.syncOk s
      (fullLoadOf sid r.1, r.1, r.2)

/-- `SessionManager.clear_session` (the spec's `evict`). -/
def clear_session (sid : String) (s : CState) : Bool × CState :=
  match lookupS sid s.sessions with
  | some _ =>
    (true,
     { s with
        sessions := eraseS sid s.sessions
        metadata := eraseS sid s.metadata
        loadingStates := eraseS sid s.loadingStates
        loadingFutures := eraseS sid s.loadingFutures })
  | none => (false, s)

/-- `SessionManager.clear_all_sessions` (the spec's `clearAll`). -/
def clear_all_sessions (s : CState) : Nat × CState :=
  (s.sessions.length, { s with sessions := [], metadata := [], loadingStates := [], loadingFutures := [] })

/-- The `"sessions"` listing of `SessionManager.get_cache_info` (the spec's
`describeCache`): one entry per `_session_metadata` key, with the metadata
and the loading state. -/
def get_cache_info_sessions (s : CState) : List (String × SessionMeta × LoadingState) :=
  s.metadata.map (fun p => (p.1, p.2, (lookupS p.1 s.loadingStates).getD LoadingState.pending))

/-! ## Sequential operation model -/

/-- One atomic step: the public cache operations plus `bg`, the executor
running a submitted upgrade task to completion. -/
inductive Op
  | acquire (year : Int) (grandPrix sessionName : String) (quick ok : Bool)
  | bg (sid : String) (ok : Bool)
  | ensure (sid : String) (o : EnsureOracle)
  | getById (sid : String)
  | evict (sid : String)
  | clearAll
deriving DecidableEq

/-- Effect of one operation on the cache state. -/
def stepOp (op : Op) (s : CState) : CState :=
  match op with
  | .acquire y g n q ok => (get_session y g n q ok s).2.1
  | .bg sid ok =>
    match lookupS sid s.loadingFutures with
    | some FutureStatus.pending =>
      let r := upgrade_session_sync sid ok s
      { r.1 with loadingFutures := setS sid FutureStatus.done r.1.loadingFutures }
    | _ => s
  | .ensure sid o => (ensure_telemetry_loaded sid o s).2.1
  | .getById _ => s
  | .evict sid => (clear_session sid s).2
  | .clearAll => (clear_all_sessions s).2

/-- Run a sequence of operations. -/
def runOps (ops : List Op) (s : CState) : CState :=
  ops.foldl (fun st op => stepOp op st) s

/-- Repeated `get_session` calls for one fixed triple in quick mode:
collects the final state, all fetch events, and the returned
identifier/handle pairs. -/
def runAcquires (year : Int) (grandPrix sessionName : String) :
    List Bool → CState → CState × List FetchEvent × List (String × Nat)
  | [], s => (s, [], [])
  | ok :: rest, s =>
    match get_session year grandPrix sessionName true ok s with
    | (res, s1, evs) =>
      let r := runAcquires year grandPrix sessionName rest s1
      (r.1, evs ++ r.2.1, (match res with | .ok p => [p] | .error _ => []) ++ r.2.2)

/-! ## Fine-grained interleaved model

`_upgrade_session_sync` performs one long, blocking, I/O-bound call
(`session.load(telemetry=True)`, tens of seconds, during which the GIL is
released), so its execution is split at that call into two atomic blocks:
the entry guards together with the LOADING_TELEMETRY write, and the
post-fetch writes (or the except branch). Everything else in the source
runs as short dictionary operations and is kept atomic. Each execution of
the body — whether on the background worker or inline in a caller of
`ensure_telemetry_loaded` — is one `Task`. -/

/-- Phase of one `_upgrade_session_sync` execution. `fetching` holds the
metadata snapshot and session handle the body read before its long
telemetry fetch; the post-fetch writes use this snapshot, mirroring the
source's local `metadata` variable. -/
inductive TaskPhase
  | notStarted
  | fetching (meta : SessionMeta) (handle : Nat)
  | finished
deriving DecidableEq

/-- One execution context running the `_upgrade_session_sync` body. -/
structure Task where
  sid : String
  phase : TaskPhase
deriving DecidableEq

/-- Fine-grained system state: the cache dictionaries, the
`_loading_futures` dict (each future named by the index of its task), and
every upgrade-body execution context. -/
structure ISys where
  cache : CState
  futures : List (String × Nat)
  tasks : List Task
deriving DecidableEq

/-- The state at process start. -/
def initISys : ISys := ⟨initState, [], []⟩

/-- Replace the phase of task `i`. -/
def setTask (i : Nat) (ph : TaskPhase) (sys : ISys) : ISys :=
  match sys.tasks.get? i with
  | some t => { sys with tasks := sys.tasks.set i ⟨t.sid, ph⟩ }
  | none => sys

/-- Interleaved events. `taskBegin i` runs the body of task `i` up to its
long telemetry fetch (the two entry guards and the LOADING_TELEMETRY
write); `taskFinish i ok` runs the remainder (post-fetch writes on success,
the except branch on failure). `ensureTimeout sid` is an
`ensure_telemetry_loaded` call that takes the pending-future branch and
whose 120-second wait times out — possible only while the submitted task is
unfinished — after which the caller runs the upgrade body inline in its own
context, spawned here as a new task. -/
inductive IEv
  | acquireQuick (year : Int) (grandPrix sessionName : String) (ok : Bool)
  | taskBegin (i : Nat)
  | taskFinish (i : Nat) (ok : Bool)
  | ensureTimeout (sid : String)
  | evict (sid : String)
deriving DecidableEq

/-- One interleaved step (events whose preconditions fail do nothing). -/
def istep (e : IEv) (sys : ISys) : ISys :=
  match e with
  | .acquireQuick y g n ok =>
    let sid := generate_session_id y g n
    match lookupS sid sys.cache.sessions with
    | some _ => sys
    | none =>
      match load_session_sync y g n sid true ok sys.cache with
      | (Except.ok _, c1, _) =>
        { cache := c1
          futures := setS sid sys.tasks.length sys.futures
          tasks := sys.tasks ++ [⟨sid, TaskPhase.notStarted⟩] }
      | (Except.error _, c1, _) => { sys with cache := c1 }
  | .taskBegin i =>
    match sys.tasks.get? i with
    | some ⟨sid, TaskPhase.notStarted⟩ =>
      match lookupS sid sys.cache.sessions with
      | none => setTask i TaskPhase.finished sys
      | some h =>
        let meta := (lookupS sid sys.cache.metadata).getD emptyMeta
        if meta.full_load then setTask i TaskPhase.finished sys
        else
          let c1 := { sys.cache with
            loadingStates := setS sid LoadingState.loading_telemetry sys.cache.loadingStates }
          setTask i (TaskPhase.fetching meta h) { sys with cache := c1 }
    | _ => sys
  | .taskFinish i ok =>
    match sys.tasks.get? i with
    | some ⟨sid, TaskPhase.fetching meta _⟩ =>
      let c1 :=
        if ok then
          { sys.cache with
              metadata := setS sid { meta with full_load := true } sys.cache.metadata
              loadingStates := setS sid LoadingState.ready sys.cache.loadingStates }
        else
          { sys.cache with loadingStates := setS sid LoadingState.ready sys.cache.loadingStates }
      setTask i TaskPhase.finished { sys with cache := c1 }
    | _ => sys
  | .ensureTimeout sid =>
    if fullLoadOf sid sys.cache then sys
    else
      match lookupS sid sys.futures with
      | some i =>
        match sys.tasks.get? i with
        | some t =>
          if t.phase = TaskPhase.finished then sys
          else { sys with tasks := sys.tasks ++ [⟨sid, TaskPhase.notStarted⟩] }
        | none => sys
      | none => sys
  | .evict sid =>
    { sys with
        cache := (clear_session sid sys.cache).2
        futures := eraseS sid sys.futures }

/-- Run a sequence of interleaved events. -/
def runI (es : List IEv) (sys : ISys) : ISys :=
  es.foldl (fun a e => istep e a) sys

/-- Number of full-fidelity fetches currently executing for `sid`: the
tasks sitting inside their `session.load(telemetry=True)` call. -/
def fetchingCount (sid : String) (sys : ISys) : Nat :=
  (sys.tasks.filter (fun t => t.sid == sid && (match t.phase with
    | TaskPhase.fetching _ _ => true
    | _ => false))).length

/-! ## Dictionary lemmas -/

theorem eraseS_cons {α : Type} (k a : String) (v : α) (rest : List (String × α)) :
    eraseS k ((a, v) :: rest) =
      if a = k then eraseS k rest else (a, v) :: eraseS k rest := by
  by_cases h : a = k <;> simp [eraseS, List.filter_cons, h]

theorem lookupS_eraseS {α : Type} (k k1 : String) (m : List (String × α)) :
    lookupS k (eraseS k1 m) = if k1 = k then none else lookupS k m := by
  induction m with
  | nil => simp [eraseS, lookupS]
  | cons p rest ih =>
    rcases p with ⟨a, v⟩
    rw [eraseS_cons]
    by_cases hak : a = k1
    · subst hak
      by_cases hk : a = k
      · subst hk
        simpa [lookupS] using ih
      · simp [lookupS, hk, ih]
    · by_cases hk : a = k
      · subst hk
        have hne : ¬ k1 = a := fun h => hak h.symm
        simp [lookupS, hak, hne]
      · simp [lookupS, hak, hk, ih]

theorem lookupS_setS {α : Type} (k k1 : String) (v : α) (m : List (String × α)) :
    lookupS k (setS k1 v m) = if k1 = k then some v else lookupS k m := by
  by_cases h : k1 = k <;> simp [setS, lookupS, lookupS_eraseS, h]

theorem lookupS_none_forall {α : Type} {k : String} {m : List (String × α)}
    (h : lookupS k m = none) : ∀ p ∈ m, p.1 ≠ k := by
  induction m with
  | nil => simp
  | cons p rest ih =>
    intro q hq
    rcases List.mem_cons.mp hq with hq1 | hq1
    · subst hq1
      intro hk
      simp [lookupS, hk] at h
    · have h1 : lookupS k rest = none := by
        by_cases hp : p.1 = k
        · simp [lookupS, hp] at h
        · simpa [lookupS, hp] using h
      exact ih h1 q hq1

/-! ## C6 — fingerprint function -/

/-- C6 counterexample: `_generate_session_id` is not collision-free on
distinct triples. The key is the underscore-join
`f"{year}_{grand_prix}_{session_name}"`, so the distinct triples
`(2023, "Monaco_Race", "X")` and `(2023, "Monaco", "Race_X")` produce the
same key string, hence the same truncated MD5 identifier. -/
theorem c6_fingerprint_collision :
    generate_session_id 2023 "Monaco_Race" "X" =
      generate_session_id 2023 "Monaco" "Race_X" ∧
    ((2023 : Int), "Monaco_Race", "X") ≠ ((2023 : Int), "Monaco", "Race_X") := by
  refine ⟨by decide, by decide⟩

/-- C6 (amended): `_generate_session_id` is a pure, total, deterministic
function of the triple — it depends only on the underscore-joined key
string, so identical triples (indeed, any triples with equal keys) always
yield the same identifier — but it is not injective on distinct triples:
collisions occur exactly when the joined keys coincide (or the truncated
digests collide). Triples with distinct keys are still separated in
practice, e.g. consecutive seasons of the same event. -/
theorem c6_fingerprint_deterministic :
    (∀ y1 g1 n1 y2 g2 n2, sessionKey y1 g1 n1 = sessionKey y2 g2 n2 →
      generate_session_id y1 g1 n1 = generate_session_id y2 g2 n2) ∧
    generate_session_id 2023 "Monaco" "Race" ≠ generate_session_id 2024 "Monaco" "Race" := by
  constructor
  · intro y1 g1 n1 y2 g2 n2 h
    simp [generate_session_id, h]
  · decide

/-- Witness for C6: the determinism part applied at a concrete equal-key
pair of triples. -/
theorem c6_fingerprint_deterministic_witness :
    sessionKey 2024 "A_B" "C" = sessionKey 2024 "A" "B_C" ∧
    generate_session_id 2024 "A_B" "C" = generate_session_id 2024 "A" "B_C" :=
  ⟨by decide, c6_fingerprint_deterministic.1 2024 "A_B" "C" 2024 "A" "B_C" (by decide)⟩

/-! ## C5 — idempotent acquisition -/

/-- A `get_session` call that finds the record returns the cached handle
with the same identifier, leaves the state untouched and performs no
fetch. -/
theorem get_session_core_hit (sid : String) (y : Int) (g n : String) (q ok : Bool)
    (s : CState) (h : Nat) (hs : lookupS sid s.sessions = some h) :
    get_session_core sid y g n q ok s = (Except.ok (sid, h), s, []) := by
  simp [get_session_core, hs]

/-- A `get_session` call that finds the record returns the cached handle
with the same identifier, leaves the state untouched and performs no
fetch. -/
theorem get_session_hit (y : Int) (g n : String) (q ok : Bool) (s : CState) (h : Nat)
    (hs : lookupS (generate_session_id y g n) s.sessions = some h) :
    get_session y g n q ok s = (Except.ok (generate_session_id y g n, h), s, []) := by
  rw [get_session]
  exact get_session_core_hit _ y g n q ok s h hs

/-- A `get_session` call that misses and whose reduced load succeeds
creates the record's entries in all the dictionaries (the upgrade future
only in quick mode) and performs exactly one fetch. -/
theorem get_session_core_miss_ok (gid : String) (y : Int) (g n : String) (q : Bool)
    (s : CState) (hs : lookupS gid s.sessions = none) :
    get_session_core gid y g n q true s =
      (Except.ok (gid, s.nextHandle),
       { sessions := setS gid s.nextHandle s.sessions,
         metadata := setS gid ⟨y, g, n, !q⟩ s.metadata,
         loadingStates := setS gid LoadingState.ready s.loadingStates,
         loadingFutures := if q then setS gid FutureStatus.pending s.loadingFutures else s.loadingFutures,
         nextHandle := s.nextHandle + 1 },
       [if q then FetchEvent.reduced gid else FetchEvent.full gid]) := by
  cases q <;> simp [get_session_core, load_session_sync, hs]

/-- A `get_session` call that misses and whose load fails writes only the
ERROR loading state and re-raises. -/
theorem get_session_core_miss_fail (gid : String) (y : Int) (g n : String) (q : Bool)
    (s : CState) (hs : lookupS gid s.sessions = none) :
    get_session_core gid y g n q false s =
      (Except.error (),
       { s with loadingStates := setS gid LoadingState.error s.loadingStates },
       [if q then FetchEvent.reduced gid else FetchEvent.full gid]) := by
  cases q <;> simp [get_session_core, load_session_sync, hs]

/-- Any number of repeated `get_session` calls on an existing record return
the identifier/handle pair unchanged and perform no fetch at all. -/
theorem runAcquires_hit (y : Int) (g n : String) (outcomes : List Bool) (s : CState) (h : Nat)
    (hs : lookupS (generate_session_id y g n) s.sessions = some h) :
    runAcquires y g n outcomes s =
      (s, [], List.replicate outcomes.length (generate_session_id y g n, h)) := by
  induction outcomes with
  | nil => simp [runAcquires]
  | cons ok rest ih =>
    simp [runAcquires, get_session_hit y g n true ok s h hs, ih, List.replicate_succ]

/-- C5: idempotent acquisition. Starting from the initial state, a first
successful quick `get_session` followed by arbitrarily many repeated calls
for the same `(year, grand_prix, session_name)` triple performs exactly one
reduced fetch in total and no full fetch, returns the same identifier and
the same dataset handle every time, schedules exactly one background
upgrade future, and that single scheduled upgrade performs its full fetch
at most once: running the submitted task (`Op.bg`) a second time is a
no-op. -/
theorem c5_idempotent_acquisition (y : Int) (g n : String) (rest : List Bool) :
    (runAcquires y g n (true :: rest) initState).2.1 =
      [FetchEvent.reduced (generate_session_id y g n)] ∧
    (runAcquires y g n (true :: rest) initState).2.2 =
      List.replicate (rest.length + 1) (generate_session_id y g n, 0) ∧
    lookupS (generate_session_id y g n)
      (runAcquires y g n (true :: rest) initState).1.loadingFutures =
        some FutureStatus.pending ∧
    (∀ ok1 ok2 : Bool,
      stepOp (Op.bg (generate_session_id y g n) ok2)
          (stepOp (Op.bg (generate_session_id y g n) ok1)
            (runAcquires y g n (true :: rest) initState).1) =
        stepOp (Op.bg (generate_session_id y g n) ok1)
          (runAcquires y g n (true :: rest) initState).1) := by
  have hfirst : get_session y g n true true initState =
      (Except.ok (generate_session_id y g n, 0),
       ⟨[(generate_session_id y g n, 0)],
        [(generate_session_id y g n, ⟨y, g, n, false⟩)],
        [(generate_session_id y g n, LoadingState.ready)],
        [(generate_session_id y g n, FutureStatus.pending)], 1⟩,
       [FetchEvent.reduced (generate_session_id y g n)]) := rfl
  have hs1 : lookupS (generate_session_id y g n)
      ([(generate_session_id y g n, 0)] : List (String × Nat)) = some 0 := by
    simp [lookupS]
  have hrest := runAcquires_hit y g n rest
    ⟨[(generate_session_id y g n, 0)],
     [(generate_session_id y g n, ⟨y, g, n, false⟩)],
     [(generate_session_id y g n, LoadingState.ready)],
     [(generate_session_id y g n, FutureStatus.pending)], 1⟩ 0 hs1
  have hrun : runAcquires y g n (true :: rest) initState =
      (⟨[(generate_session_id y g n, 0)],
        [(generate_session_id y g n, ⟨y, g, n, false⟩)],
        [(generate_session_id y g n, LoadingState.ready)],
        [(generate_session_id y g n, FutureStatus.pending)], 1⟩,
       [FetchEvent.reduced (generate_session_id y g n)],
       (generate_session_id y g n, 0) :: List.replicate rest.length (generate_session_id y g n, 0)) := by
    rw [runAcquires, hfirst]
    dsimp only
    rw [hrest]
    simp
  rw [hrun]
  generalize generate_session_id y g n = sid
  refine ⟨rfl, by simp [List.replicate_succ], by simp [lookupS], ?_⟩
  intro ok1 ok2
  cases ok1 <;>
    simp [stepOp, upgrade_session_sync, fullLoadOf, emptyMeta, lookupS, lookupS_setS, setS,
      eraseS, List.filter_cons]

/-! ## C1 — ensure returning true must imply full fidelity -/

/-- C1: the code violates this claim. `_upgrade_session_sync` swallows the
exception of a failing telemetry load, so the background task completes
"successfully" in the eyes of `future.result`; a later
`ensure_telemetry_loaded` finds the completed future, returns `True`
without attempting any synchronous fallback fetch, yet the record's
`full_load` flag is still false — contradicting the method's own docstring
"Returns True if telemetry is ready". Run from the initial state: acquire
(reduced fetch succeeds), background upgrade runs and its telemetry load
raises, then ensure is called. -/
theorem c1_ensure_true_without_telemetry :
    (ensure_telemetry_loaded (generate_session_id 2023 "Monaco" "Race") ⟨true, true, true⟩
        (runOps [Op.acquire 2023 "Monaco" "Race" true true,
                 Op.bg (generate_session_id 2023 "Monaco" "Race") false] initState)).1 = true ∧
    fullLoadOf (generate_session_id 2023 "Monaco" "Race")
        (ensure_telemetry_loaded (generate_session_id 2023 "Monaco" "Race") ⟨true, true, true⟩
          (runOps [Op.acquire 2023 "Monaco" "Race" true true,
                   Op.bg (generate_session_id 2023 "Monaco" "Race") false] initState)).2.1 =
      false ∧
    (ensure_telemetry_loaded (generate_session_id 2023 "Monaco" "Race") ⟨true, true, true⟩
        (runOps [Op.acquire 2023 "Monaco" "Race" true true,
                 Op.bg (generate_session_id 2023 "Monaco" "Race") false] initState)).2.2 = [] := by
  refine ⟨by decide, by decide, by decide⟩

/-! ## C2 — behavior of ensure on timeout -/

/-- C2 counterexample: when the 120-second wait on the pending upgrade
future raises, `ensure_telemetry_loaded` does not simply return false — its
except branch runs `_upgrade_session_sync` synchronously in the calling
context (a fetch of its own), and when that succeeds the call returns
true. -/
theorem c2_timeout_counterexample :
    (ensure_telemetry_loaded (generate_session_id 2023 "Monaco" "Race") ⟨false, true, true⟩
        (runOps [Op.acquire 2023 "Monaco" "Race" true true] initState)).1 = true ∧
    (ensure_telemetry_loaded (generate_session_id 2023 "Monaco" "Race") ⟨false, true, true⟩
        (runOps [Op.acquire 2023 "Monaco" "Race" true true] initState)).2.2 =
      [FetchEvent.full (generate_session_id 2023 "Monaco" "Race")] := by
  refine ⟨by decide, by decide⟩

/-- C2 (amended): if the wait on an in-flight upgrade future times out,
`ensure_telemetry_loaded` leaves the in-flight task's bookkeeping in place
(the future entry is not cancelled or removed), but instead of returning
false it performs the full fetch synchronously in the calling context and
returns the success of that synchronous attempt. -/
theorem c2_timeout_fallback (sid : String) (s : CState) (o : EnsureOracle) (h : Nat)
    (m : SessionMeta)
    (hs : lookupS sid s.sessions = some h)
    (hm : lookupS sid s.metadata = some m)
    (hfl : m.full_load = false)
    (hf : lookupS sid s.loadingFutures = some FutureStatus.pending)
    (ht : o.completesInTime = false) :
    (ensure_telemetry_loaded sid o s).2.2 = [FetchEvent.full sid] ∧
    lookupS sid (ensure_telemetry_loaded sid o s).2.1.loadingFutures =
      some FutureStatus.pending ∧
    (ensure_telemetry_loaded sid o s).1 = o.syncOk := by
  rcases o with ⟨ct, bgok, sy⟩
  simp only at ht
  subst ht
  cases sy <;>
    simp [ensure_telemetry_loaded, upgrade_session_sync, fullLoadOf, emptyMeta,
      hs, hm, hfl, hf, lookupS_setS]

/-- Witness for C2: a concrete record with a reduced dataset and a pending
upgrade future, on which the ensure wait times out. -/
theorem c2_timeout_fallback_witness :
    lookupS "x" (⟨[("x", 7)], [("x", ⟨2023, "a", "b", false⟩)],
        [("x", LoadingState.ready)], [("x", FutureStatus.pending)], 8⟩ : CState).sessions =
      some 7 ∧
    (ensure_telemetry_loaded "x" ⟨false, true, true⟩
        ⟨[("x", 7)], [("x", ⟨2023, "a", "b", false⟩)],
         [("x", LoadingState.ready)], [("x", FutureStatus.pending)], 8⟩).2.2 =
      [FetchEvent.full "x"] :=
  ⟨by decide,
   (c2_timeout_fallback "x"
      ⟨[("x", 7)], [("x", ⟨2023, "a", "b", false⟩)],
       [("x", LoadingState.ready)], [("x", FutureStatus.pending)], 8⟩
      ⟨false, true, true⟩ 7 ⟨2023, "a", "b", false⟩
      (by decide) (by decide) rfl (by decide) rfl).1⟩

/-! ## C3 — full-upgrade failure keeps READY, not ERROR -/

/-- C3 counterexample: after a successful reduced fetch, a failing full
upgrade does not move the record to the ERROR state. The except branch of
`_upgrade_session_sync` deliberately writes READY ("Keep session usable").
Run from the initial state: acquire succeeds, then the background upgrade
runs and its telemetry load raises; the loading state is READY, not
ERROR. -/
theorem c3_upgrade_failure_not_error :
    get_loading_state (generate_session_id 2023 "Monaco" "Race")
        (runOps [Op.acquire 2023 "Monaco" "Race" true true,
                 Op.bg (generate_session_id 2023 "Monaco" "Race") false] initState) =
      LoadingState.ready ∧
    LoadingState.ready ≠ LoadingState.error := by
  refine ⟨by decide, by decide⟩

/-- C3 (amended): if the full fetch fails after a successful reduced fetch,
the record's loading state is set back to READY (not ERROR) and the record
is degraded but preserved: `get_session_by_id` still returns the reduced
dataset handle and `full_load` stays false. -/
theorem c3_upgrade_failure_degrades (sid : String) (s : CState) (h : Nat) (m : SessionMeta)
    (hs : lookupS sid s.sessions = some h)
    (hm : lookupS sid s.metadata = some m)
    (hfl : m.full_load = false) :
    (upgrade_session_sync sid false s).2 = [FetchEvent.full sid] ∧
    get_loading_state sid (upgrade_session_sync sid false s).1 = LoadingState.ready ∧
    get_session_by_id sid (upgrade_session_sync sid false s).1 = some h ∧
    fullLoadOf sid (upgrade_session_sync sid false s).1 = false := by
  simp [upgrade_session_sync, hs, hm, hfl, get_loading_state, get_session_by_id, fullLoadOf,
    lookupS_setS]

/-- Witness for C3: a concrete record with a reduced dataset whose full
upgrade fails. -/
theorem c3_upgrade_failure_degrades_witness :
    lookupS "x" (⟨[("x", 7)], [("x", ⟨2023, "a", "b", false⟩)],
        [("x", LoadingState.ready)], [], 8⟩ : CState).sessions = some 7 ∧
    get_session_by_id "x"
        (upgrade_session_sync "x" false
          ⟨[("x", 7)], [("x", ⟨2023, "a", "b", false⟩)],
           [("x", LoadingState.ready)], [], 8⟩).1 = some 7 :=
  ⟨by decide,
   (c3_upgrade_failure_degrades "x"
      ⟨[("x", 7)], [("x", ⟨2023, "a", "b", false⟩)], [("x", LoadingState.ready)], [], 8⟩
      7 ⟨2023, "a", "b", false⟩ (by decide) (by decide) rfl).2.2.1⟩

/-! ## C4 — failed reduced fetch leaves no cached record -/

/-- C4 counterexample: when the reduced fetch fails, only the
loading-states dict records ERROR; no session or metadata entry is created,
so the identifier does not appear in the `get_cache_info` sessions listing,
and a second `get_session` for the same triple re-runs the reduced
fetch. -/
theorem c4_error_record_invisible :
    get_loading_state (generate_session_id 2023 "Monaco" "Race")
        (runOps [Op.acquire 2023 "Monaco" "Race" true false] initState) =
      LoadingState.error ∧
    get_cache_info_sessions
        (runOps [Op.acquire 2023 "Monaco" "Race" true false] initState) = [] ∧
    (get_session 2023 "Monaco" "Race" true false
        (runOps [Op.acquire 2023 "Monaco" "Race" true false] initState)).2.2 =
      [FetchEvent.reduced (generate_session_id 2023 "Monaco" "Race")] := by
  refine ⟨by decide, by decide, by decide⟩

/-- C4 (amended): a failing reduced fetch makes `get_session` fail with the
propagated fetch error and sets the loading state to ERROR, but the record
is not otherwise cached: no metadata entry exists, the identifier stays
invisible in the `get_cache_info` sessions listing, and any subsequent
`get_session` for the same triple runs the reduced fetch again. -/
theorem c4_reduced_failure (y : Int) (g n : String) (s : CState) (ok2 : Bool)
    (hs : lookupS (generate_session_id y g n) s.sessions = none)
    (hm : lookupS (generate_session_id y g n) s.metadata = none) :
    (get_session y g n true false s).1 = Except.error () ∧
    get_loading_state (generate_session_id y g n) (get_session y g n true false s).2.1 =
      LoadingState.error ∧
    (∀ e ∈ get_cache_info_sessions (get_session y g n true false s).2.1,
      e.1 ≠ generate_session_id y g n) ∧
    (get_session y g n true ok2 (get_session y g n true false s).2.1).2.2 =
      [FetchEvent.reduced (generate_session_id y g n)] := by
  have hfail : get_session y g n true false s =
      (Except.error (),
       { s with loadingStates := setS (generate_session_id y g n) LoadingState.error s.loadingStates },
       [FetchEvent.reduced (generate_session_id y g n)]) := by
    rw [get_session]
    simpa using get_session_core_miss_fail (generate_session_id y g n) y g n true s hs
  rw [hfail]
  refine ⟨rfl, by simp [get_loading_state, lookupS_setS], ?_, ?_⟩
  · intro e he
    simp only [get_cache_info_sessions, List.mem_map] at he
    obtain ⟨p, hp, rfl⟩ := he
    exact lookupS_none_forall hm p hp
  · rw [get_session]
    have hs2 : lookupS (generate_session_id y g n)
        ({ s with loadingStates := setS (generate_session_id y g n) LoadingState.error s.loadingStates } : CState).sessions = none := hs
    cases ok2
    · simpa using congrArg (fun t => t.2.2)
        (get_session_core_miss_fail (generate_session_id y g n) y g n true _ hs2)
    · simpa using congrArg (fun t => t.2.2)
        (get_session_core_miss_ok (generate_session_id y g n) y g n true _ hs2)

/-- Witness for C4: the failed reduced fetch from the empty initial
state. -/
theorem c4_reduced_failure_witness :
    lookupS (generate_session_id 2023 "Monaco" "Race") initState.sessions = none ∧
    (get_session 2023 "Monaco" "Race" true false initState).1 = Except.error () :=
  ⟨rfl, (c4_reduced_failure 2023 "Monaco" "Race" initState true rfl rfl).1⟩

/-! ## C7 — monotonic fidelity -/

/-- States in which every fully-loaded metadata entry has a live session
entry. This holds in every state reachable from the initial state and
rules out the only way `full_load` could regress: a re-load of a triple
whose record is gone but whose metadata survived. -/
def FullImpliesCached (s : CState) : Prop :=
  ∀ sid, fullLoadOf sid s = true → lookupS sid s.sessions ≠ none

theorem fic_init : FullImpliesCached initState := by
  intro sid h
  simp [fullLoadOf, emptyMeta, lookupS, initState] at h

theorem fic_upgrade (sid1 : String) (ok : Bool) (s : CState)
    (hI : FullImpliesCached s) :
    FullImpliesCached (upgrade_session_sync sid1 ok s).1 := by
  rcases hvs : lookupS sid1 s.sessions with _ | h1
  · simpa [upgrade_session_sync, hvs] using hI
  · by_cases hfl : ((lookupS sid1 s.metadata).getD emptyMeta).full_load
    · simpa [upgrade_session_sync, hvs, hfl] using hI
    · cases ok
      · intro sid hf
        simp only [upgrade_session_sync, hvs, hfl] at hf ⊢
        simp only [Bool.false_eq_true, if_false] at hf ⊢
        simp only [fullLoadOf] at hf
        exact hI sid hf
      · intro sid hf
        by_cases hgen : sid1 = sid
        · subst hgen
          simp [upgrade_session_sync, hvs, hfl, hvs]
        · simp only [upgrade_session_sync, hvs, hfl] at hf ⊢
          simp only [Bool.false_eq_true, if_false, if_true] at hf ⊢
          simp only [fullLoadOf, lookupS_setS, hgen, if_false] at hf
          exact hI sid hf

theorem fic_step (op : Op) (s : CState) (hI : FullImpliesCached s) :
    FullImpliesCached (stepOp op s) := by
  cases op with
  | acquire y g n q ok =>
    show FullImpliesCached (get_session y g n q ok s).2.1
    rw [get_session]
    generalize generate_session_id y g n = gid
    rcases hs : lookupS gid s.sessions with _ | h
    · cases ok
      · rw [get_session_core_miss_fail gid y g n q s hs]
        intro sid hf
        simp only [fullLoadOf] at hf ⊢
        exact hI sid hf
      · rw [get_session_core_miss_ok gid y g n q s hs]
        intro sid hf
        by_cases hgen : gid = sid
        · subst hgen
          simp [lookupS_setS]
        · simp [fullLoadOf, lookupS_setS, hgen] at hf ⊢
          exact hI sid hf
    · rw [get_session_core_hit gid y g n q ok s h hs]
      exact hI
  | bg sid1 ok =>
    rcases hfut : lookupS sid1 s.loadingFutures with _ | fs
    · simpa [stepOp, hfut] using hI
    · cases fs
      · intro sid hf
        simp only [stepOp, hfut] at hf ⊢
        have h1 := fic_upgrade sid1 ok s hI sid
        simp only [fullLoadOf] at hf h1 ⊢
        exact h1 hf
      · simpa [stepOp, hfut] using hI
  | ensure sid1 o =>
    by_cases hfl : fullLoadOf sid1 s = true
    · simpa [stepOp, ensure_telemetry_loaded, hfl] using hI
    · have hfl2 : fullLoadOf sid1 s = false := by
        revert hfl
        cases fullLoadOf sid1 s <;> simp
      rcases hfut : lookupS sid1 s.loadingFutures with _ | fs
      · intro sid hf
        simp only [stepOp, ensure_telemetry_loaded, hfl2, hfut] at hf ⊢
        simp only [Bool.false_eq_true, if_false] at hf ⊢
        exact fic_upgrade sid1 o.syncOk s hI sid hf
      · cases fs
        · cases hct : o.completesInTime
          · intro sid hf
            simp only [stepOp, ensure_telemetry_loaded, hfl2, hfut, hct] at hf ⊢
            simp only [Bool.false_eq_true, if_false] at hf ⊢
            exact fic_upgrade sid1 o.syncOk s hI sid hf
          · intro sid hf
            simp only [stepOp, ensure_telemetry_loaded, hfl2, hfut, hct] at hf ⊢
            simp only [Bool.false_eq_true, if_false, if_true] at hf ⊢
            have h1 := fic_upgrade sid1 o.bgOk s hI sid
            simp only [fullLoadOf] at hf h1 ⊢
            exact h1 hf
        · simpa [stepOp, ensure_telemetry_loaded, hfl2, hfut] using hI
  | getById sid1 => simpa [stepOp] using hI
  | evict sid1 =>
    rcases hvs : lookupS sid1 s.sessions with _ | h
    · simpa [stepOp, clear_session, hvs] using hI
    · intro sid hf
      by_cases hgen : sid1 = sid
      · subst hgen
        simp only [stepOp, clear_session, hvs, fullLoadOf, lookupS_eraseS, if_pos rfl] at hf
        simp [emptyMeta] at hf
      · simp only [stepOp, clear_session, hvs, fullLoadOf, lookupS_eraseS, hgen, if_false] at hf ⊢
        exact hI sid hf
  | clearAll =>
    intro sid hf
    simp [stepOp, clear_all_sessions, fullLoadOf, lookupS, emptyMeta] at hf

theorem fic_run (ops : List Op) (s : CState) (hI : FullImpliesCached s) :
    FullImpliesCached (runOps ops s) := by
  induction ops generalizing s with
  | nil => exact hI
  | cons op rest ih => exact ih (stepOp op s) (fic_step op s hI)

theorem full_mono_upgrade (sid1 sid : String) (ok : Bool) (s : CState)
    (hfull : fullLoadOf sid s = true) :
    fullLoadOf sid (upgrade_session_sync sid1 ok s).1 = true := by
  rcases hvs : lookupS sid1 s.sessions with _ | h1
  · simpa [upgrade_session_sync, hvs] using hfull
  · by_cases hfl : ((lookupS sid1 s.metadata).getD emptyMeta).full_load
    · simpa [upgrade_session_sync, hvs, hfl] using hfull
    · cases ok
      · simpa [upgrade_session_sync, hvs, hfl, fullLoadOf] using hfull
      · by_cases hgen : sid1 = sid
        · subst hgen
          simp [upgrade_session_sync, hvs, hfl, fullLoadOf, lookupS_setS]
        · simp only [upgrade_session_sync, hvs, hfl] at hfull ⊢
          simp only [Bool.false_eq_true, if_false, if_true]
          simpa [fullLoadOf, lookupS_setS, hgen] using hfull

theorem full_mono_step (op : Op) (s : CState) (sid : String)
    (hI : FullImpliesCached s) (hfull : fullLoadOf sid s = true)
    (hne1 : op ≠ Op.clearAll) (hne2 : op ≠ Op.evict sid) :
    fullLoadOf sid (stepOp op s) = true := by
  cases op with
  | acquire y g n q ok =>
    show fullLoadOf sid (get_session y g n q ok s).2.1 = true
    rw [get_session]
    generalize generate_session_id y g n = gid
    rcases hs : lookupS gid s.sessions with _ | h
    · by_cases hgen : gid = sid
      · exact absurd hs (by rw [hgen]; exact hI sid hfull)
      · cases ok
        · rw [get_session_core_miss_fail gid y g n q s hs]
          simpa [fullLoadOf] using hfull
        · rw [get_session_core_miss_ok gid y g n q s hs]
          simpa [fullLoadOf, lookupS_setS, hgen] using hfull
    · rw [get_session_core_hit gid y g n q ok s h hs]
      exact hfull
  | bg sid1 ok =>
    rcases hfut : lookupS sid1 s.loadingFutures with _ | fs
    · simpa [stepOp, hfut] using hfull
    · cases fs
      · have h1 := full_mono_upgrade sid1 sid ok s hfull
        simp only [stepOp, hfut]
        simpa [fullLoadOf] using h1
      · simpa [stepOp, hfut] using hfull
  | ensure sid1 o =>
    by_cases hfl : fullLoadOf sid1 s = true
    · simpa [stepOp, ensure_telemetry_loaded, hfl] using hfull
    · have hfl2 : fullLoadOf sid1 s = false := by
        revert hfl
        cases fullLoadOf sid1 s <;> simp
      rcases hfut : lookupS sid1 s.loadingFutures with _ | fs
      · simp only [stepOp, ensure_telemetry_loaded, hfl2, hfut, Bool.false_eq_true, if_false]
        exact full_mono_upgrade sid1 sid o.syncOk s hfull
      · cases fs
        · cases hct : o.completesInTime
          · simp only [stepOp, ensure_telemetry_loaded, hfl2, hfut, hct, Bool.false_eq_true,
              if_false]
            exact full_mono_upgrade sid1 sid o.syncOk s hfull
          · have h1 := full_mono_upgrade sid1 sid o.bgOk s hfull
            simp only [stepOp, ensure_telemetry_loaded, hfl2, hfut, hct, Bool.false_eq_true,
              if_false, if_true]
            simpa [fullLoadOf] using h1
        · simpa [stepOp, ensure_telemetry_loaded, hfl2, hfut] using hfull
  | getById sid1 => simpa [stepOp] using hfull
  | evict sid1 =>
    have hgen : sid1 ≠ sid := fun h => hne2 (by rw [h])
    rcases hvs : lookupS sid1 s.sessions with _ | h
    · simpa [stepOp, clear_session, hvs] using hfull
    · simp only [stepOp, clear_session, hvs]
      simpa [fullLoadOf, lookupS_eraseS, hgen] using hfull
  | clearAll => exact absurd rfl hne1

theorem full_mono_run (post : List Op) (s : CState) (sid : String)
    (hI : FullImpliesCached s) (hfull : fullLoadOf sid s = true)
    (hpost : ∀ op ∈ post, op ≠ Op.clearAll ∧ op ≠ Op.evict sid) :
    fullLoadOf sid (runOps post s) = true := by
  induction post generalizing s with
  | nil => exact hfull
  | cons op rest ih =>
    have h1 := hpost op (List.mem_cons_self op rest)
    exact ih (stepOp op s) (fic_step op s hI)
      (full_mono_step op s sid hI hfull h1.1 h1.2)
      (fun o ho => hpost o (List.mem_cons_of_mem op ho))

/-- C7: monotonic fidelity. In any state reachable from the initial state
by a sequence of operations, once a record's `full_load` flag is true, no
further sequence of operations that contains neither `clear_all_sessions`
nor `clear_session` of that identifier ever makes the flag false again. -/
theorem c7_monotonic_fidelity (pre post : List Op) (sid : String)
    (hfull : fullLoadOf sid (runOps pre initState) = true)
    (hpost : ∀ op ∈ post, op ≠ Op.clearAll ∧ op ≠ Op.evict sid) :
    fullLoadOf sid (runOps post (runOps pre initState)) = true :=
  full_mono_run post (runOps pre initState) sid (fic_run pre initState fic_init) hfull hpost

/-- Witness for C7: a record created with `quick=False` is fully loaded at
once; a lookup and an eviction of a different identifier keep the flag
true. -/
theorem c7_monotonic_fidelity_witness :
    fullLoadOf (generate_session_id 2023 "Monaco" "Race")
        (runOps [Op.acquire 2023 "Monaco" "Race" false true] initState) = true ∧
    fullLoadOf (generate_session_id 2023 "Monaco" "Race")
        (runOps [Op.getById "q", Op.evict "q"]
          (runOps [Op.acquire 2023 "Monaco" "Race" false true] initState)) = true :=
  ⟨by decide,
   c7_monotonic_fidelity [Op.acquire 2023 "Monaco" "Race" false true]
     [Op.getById "q", Op.evict "q"] (generate_session_id 2023 "Monaco" "Race")
     (by decide) (by decide)⟩

/-! ## C10 — a failed record's ERROR entry outlives evict -/

/-- `true` for operations that are not `clear_all_sessions` and whose
`get_session` calls, when fingerprinting to `sid`, have a failing reduced
fetch (the environment keeps failing for that triple). -/
def sparesSid (sid : String) : Op → Bool
  | Op.clearAll => false
  | Op.acquire y g n _ ok => !(generate_session_id y g n == sid) || !ok
  | _ => true

/-- The residue a failed reduced fetch leaves behind: no session entry, an
ERROR loading-state entry, no upgrade future. -/
def errResidue (sid : String) (s : CState) : Prop :=
  lookupS sid s.sessions = none ∧
  lookupS sid s.loadingStates = some LoadingState.error ∧
  lookupS sid s.loadingFutures = none

theorem upgrade_noop_absent (sid : String) (ok : Bool) (s : CState)
    (hs : lookupS sid s.sessions = none) :
    upgrade_session_sync sid ok s = (s, []) := by
  simp [upgrade_session_sync, hs]

theorem upgrade_lookup_other (sid1 sid : String) (hne : sid1 ≠ sid) (ok : Bool) (s : CState) :
    lookupS sid (upgrade_session_sync sid1 ok s).1.sessions = lookupS sid s.sessions ∧
    lookupS sid (upgrade_session_sync sid1 ok s).1.loadingStates = lookupS sid s.loadingStates ∧
    (upgrade_session_sync sid1 ok s).1.loadingFutures = s.loadingFutures := by
  rcases hvs : lookupS sid1 s.sessions with _ | h1
  · simp [upgrade_session_sync, hvs]
  · by_cases hfl : ((lookupS sid1 s.metadata).getD emptyMeta).full_load
    · simp [upgrade_session_sync, hvs, hfl]
    · cases ok <;> simp [upgrade_session_sync, hvs, hfl, lookupS_setS, hne]

theorem err_base (y : Int) (g n sid : String)
    (hgen : generate_session_id y g n = sid) :
    errResidue sid (stepOp (Op.acquire y g n true false) initState) := by
  show errResidue sid (get_session y g n true false initState).2.1
  rw [get_session, hgen, get_session_core_miss_fail sid y g n true initState rfl]
  simp [errResidue, lookupS_setS, initState, lookupS]

theorem err_step (sid : String) (op : Op) (s : CState)
    (hop : sparesSid sid op = true) (hJ : errResidue sid s) :
    errResidue sid (stepOp op s) := by
  obtain ⟨hJ1, hJ2, hJ3⟩ := hJ
  cases op with
  | acquire y g n q ok =>
    show errResidue sid (get_session y g n q ok s).2.1
    rw [get_session]
    by_cases hgid : generate_session_id y g n = sid
    · have hok : ok = false := by
        simp only [sparesSid, hgid] at hop
        simpa using hop
      subst hok
      rw [hgid, get_session_core_miss_fail sid y g n q s hJ1]
      exact ⟨hJ1, by simp [lookupS_setS], hJ3⟩
    · rcases hsl : lookupS (generate_session_id y g n) s.sessions with _ | h
      · cases ok
        · rw [get_session_core_miss_fail _ y g n q s hsl]
          exact ⟨hJ1, by simpa [lookupS_setS, hgid] using hJ2, hJ3⟩
        · rw [get_session_core_miss_ok _ y g n q s hsl]
          refine ⟨by simpa [lookupS_setS, hgid] using hJ1,
                  by simpa [lookupS_setS, hgid] using hJ2, ?_⟩
          cases q <;> simp [lookupS_setS, hgid, hJ3]
      · rw [get_session_core_hit _ y g n q ok s h hsl]
        exact ⟨hJ1, hJ2, hJ3⟩
  | bg sid1 ok =>
    by_cases hgid : sid1 = sid
    · subst hgid
      simp only [stepOp, hJ3]
      exact ⟨hJ1, hJ2, hJ3⟩
    · rcases hfut : lookupS sid1 s.loadingFutures with _ | fs
      · simpa [stepOp, hfut] using ⟨hJ1, hJ2, hJ3⟩
      · cases fs
        · obtain ⟨hu1, hu2, hu3⟩ := upgrade_lookup_other sid1 sid hgid ok s
          simp only [stepOp, hfut]
          exact ⟨by simpa using hu1.trans hJ1,
                 by simpa using hu2.trans hJ2,
                 by simpa [lookupS_setS, hgid, hu3] using hJ3⟩
        · simpa [stepOp, hfut] using ⟨hJ1, hJ2, hJ3⟩
  | ensure sid1 o =>
    by_cases hgid : sid1 = sid
    · subst hgid
      by_cases hfl : fullLoadOf sid1 s = true
      · simpa [stepOp, ensure_telemetry_loaded, hfl] using ⟨hJ1, hJ2, hJ3⟩
      · have hfl2 : fullLoadOf sid1 s = false := by
          revert hfl
          cases fullLoadOf sid1 s <;> simp
        simp only [stepOp, ensure_telemetry_loaded, hfl2, hJ3, Bool.false_eq_true, if_false]
        rw [upgrade_noop_absent sid1 o.syncOk s hJ1]
        exact ⟨hJ1, hJ2, hJ3⟩
    · by_cases hfl : fullLoadOf sid1 s = true
      · simpa [stepOp, ensure_telemetry_loaded, hfl] using ⟨hJ1, hJ2, hJ3⟩
      · have hfl2 : fullLoadOf sid1 s = false := by
          revert hfl
          cases fullLoadOf sid1 s <;> simp
        obtain ⟨hu1s, hu2s, hu3s⟩ := upgrade_lookup_other sid1 sid hgid o.syncOk s
        obtain ⟨hu1b, hu2b, hu3b⟩ := upgrade_lookup_other sid1 sid hgid o.bgOk s
        rcases hfut : lookupS sid1 s.loadingFutures with _ | fs
        · simp only [stepOp, ensure_telemetry_loaded, hfl2, hfut, Bool.false_eq_true, if_false]
          exact ⟨hu1s.trans hJ1, hu2s.trans hJ2, hu3s ▸ hJ3⟩
        · cases fs
          · cases hct : o.completesInTime
            · simp only [stepOp, ensure_telemetry_loaded, hfl2, hfut, hct, Bool.false_eq_true,
                if_false]
              exact ⟨hu1s.trans hJ1, hu2s.trans hJ2, hu3s ▸ hJ3⟩
            · simp only [stepOp, ensure_telemetry_loaded, hfl2, hfut, hct, Bool.false_eq_true,
                if_false, if_true]
              exact ⟨by simpa using hu1b.trans hJ1,
                     by simpa using hu2b.trans hJ2,
                     by simpa [lookupS_setS, hgid, hu3b] using hJ3⟩
          · simpa [stepOp, ensure_telemetry_loaded, hfl2, hfut] using ⟨hJ1, hJ2, hJ3⟩
  | getById sid1 => exact ⟨hJ1, hJ2, hJ3⟩
  | evict sid1 =>
    by_cases hgid : sid1 = sid
    · subst hgid
      simpa [stepOp, clear_session, hJ1] using ⟨hJ1, hJ2, hJ3⟩
    · rcases hvs : lookupS sid1 s.sessions with _ | h
      · simpa [stepOp, clear_session, hvs] using ⟨hJ1, hJ2, hJ3⟩
      · simp only [stepOp, clear_session, hvs]
        exact ⟨by simpa [lookupS_eraseS, hgid] using hJ1,
               by simpa [lookupS_eraseS, hgid] using hJ2,
               by simpa [lookupS_eraseS, hgid] using hJ3⟩
  | clearAll => simp [sparesSid] at hop

theorem err_run (sid : String) (ops : List Op) (s : CState)
    (hops : ∀ op ∈ ops, sparesSid sid op = true) (hJ : errResidue sid s) :
    errResidue sid (runOps ops s) := by
  induction ops generalizing s with
  | nil => exact hJ
  | cons op rest ih =>
    exact ih (stepOp op s)
      (fun o ho => hops o (List.mem_cons_of_mem op ho))
      (err_step sid op s (hops op (List.mem_cons_self op rest)) hJ)

/-- C10: after a failed reduced fetch for a triple (run from the initial
state), and under any further operations that never call
`clear_all_sessions` and for which the fetcher keeps failing on that
triple, the identifier has no session entry, so `clear_session` returns
false and removes nothing; the ERROR entry persists in the loading-state
dict, `get_loading_state` keeps reporting ERROR, and only
`clear_all_sessions` removes the entry. -/
theorem c10_error_entry_persists (y : Int) (g n : String) (ops : List Op)
    (hops : ∀ op ∈ ops, sparesSid (generate_session_id y g n) op = true) :
    get_loading_state (generate_session_id y g n)
        (runOps ops (stepOp (Op.acquire y g n true false) initState)) =
      LoadingState.error ∧
    clear_session (generate_session_id y g n)
        (runOps ops (stepOp (Op.acquire y g n true false) initState)) =
      (false, runOps ops (stepOp (Op.acquire y g n true false) initState)) ∧
    lookupS (generate_session_id y g n)
        (clear_all_sessions
          (runOps ops (stepOp (Op.acquire y g n true false) initState))).2.loadingStates =
      none := by
  obtain ⟨hJ1, hJ2, hJ3⟩ :=
    err_run (generate_session_id y g n) ops (stepOp (Op.acquire y g n true false) initState)
      hops (err_base y g n (generate_session_id y g n) rfl)
  refine ⟨by simp [get_loading_state, hJ2], by simp [clear_session, hJ1], ?_⟩
  simp [clear_all_sessions, lookupS]

/-- Witness for C10: a failed Monaco acquire, then an unrelated eviction
and a lookup; the ERROR loading state is still reported. -/
theorem c10_error_entry_persists_witness :
    (∀ op ∈ [Op.evict "other", Op.getById "q"],
      sparesSid (generate_session_id 2023 "Monaco" "Race") op = true) ∧
    get_loading_state (generate_session_id 2023 "Monaco" "Race")
        (runOps [Op.evict "other", Op.getById "q"]
          (stepOp (Op.acquire 2023 "Monaco" "Race" true false) initState)) =
      LoadingState.error :=
  ⟨by decide,
   (c10_error_entry_persists 2023 "Monaco" "Race" [Op.evict "other", Op.getById "q"]
      (by decide)).1⟩

/-! ## C8 — at-most-one-in-flight upgrade -/

/-- C8: the code violates the at-most-one-in-flight-upgrade invariant. A
reachable interleaving of the fine-grained model: `get_session` creates the
record and submits the background upgrade; the worker enters its telemetry
fetch; an `ensure_telemetry_loaded` call times out waiting on the pending
future (possible, the task is unfinished) and its except branch runs
`_upgrade_session_sync` inline, whose guards pass because `full_load` is
still false; the inline body enters its own telemetry fetch. Two full
fetches for the same identifier now execute concurrently. -/
theorem c8_two_concurrent_full_fetches :
    fetchingCount (generate_session_id 2023 "Monaco" "Race")
        (runI [IEv.acquireQuick 2023 "Monaco" "Race" true,
               IEv.taskBegin 0,
               IEv.ensureTimeout (generate_session_id 2023 "Monaco" "Race"),
               IEv.taskBegin 1] initISys) = 2 := by
  decide

/-! ## C9 — eviction versus an in-flight upgrade -/

/-- C9 counterexample: a full-fetch task that is inside its telemetry fetch
at eviction time writes back into the cache when it completes. Reachable
trace: acquire, task begins (passes its guards and enters the fetch), the
record is evicted, the task finishes successfully — its post-fetch writes
re-insert the metadata entry (now flagged fully loaded) and a READY
loading-state entry for the evicted identifier. Only the sessions dict is
left alone, so `get` still reports nothing. -/
theorem c9_resurrection_counterexample :
    lookupS (generate_session_id 2023 "Monaco" "Race")
        (runI [IEv.acquireQuick 2023 "Monaco" "Race" true, IEv.taskBegin 0,
               IEv.evict (generate_session_id 2023 "Monaco" "Race"),
               IEv.taskFinish 0 true] initISys).cache.metadata =
      some ⟨2023, "Monaco", "Race", true⟩ ∧
    lookupS (generate_session_id 2023 "Monaco" "Race")
        (runI [IEv.acquireQuick 2023 "Monaco" "Race" true, IEv.taskBegin 0,
               IEv.evict (generate_session_id 2023 "Monaco" "Race"),
               IEv.taskFinish 0 true] initISys).cache.loadingStates =
      some LoadingState.ready := by
  refine ⟨by decide, by decide⟩

/-- C9 (amended): after `clear_session`, `get_session_by_id` returns
nothing; an upgrade task that has not yet started its body at eviction time
is a no-op on the cache when it runs (its first guard fails); but a task
already inside its fetch at eviction time writes the metadata and
loading-state entries back on completion — only the sessions dict is not
re-written, so `get_session_by_id` still returns nothing. -/
theorem c9_evict_discard (s : CState) (sys : ISys) (sid : String) (i : Nat) :
    get_session_by_id sid (clear_session sid s).2 = none ∧
    (sys.tasks.get? i = some ⟨sid, TaskPhase.notStarted⟩ →
      lookupS sid sys.cache.sessions = none →
      (istep (IEv.taskBegin i) sys).cache = sys.cache) ∧
    (∀ m h, sys.tasks.get? i = some ⟨sid, TaskPhase.fetching m h⟩ →
      lookupS sid (istep (IEv.taskFinish i true) sys).cache.metadata =
        some { m with full_load := true } ∧
      lookupS sid (istep (IEv.taskFinish i true) sys).cache.loadingStates =
        some LoadingState.ready ∧
      (istep (IEv.taskFinish i true) sys).cache.sessions = sys.cache.sessions) := by
  refine ⟨?_, ?_, ?_⟩
  · rcases hvs : lookupS sid s.sessions with _ | h
    · simp [clear_session, hvs, get_session_by_id]
    · simp [clear_session, hvs, get_session_by_id, lookupS_eraseS]
  · intro ht hs
    simp only [List.get?_eq_getElem?] at ht
    simp [istep, ht, hs, setTask]
  · intro m h ht
    simp only [List.get?_eq_getElem?] at ht
    simp [istep, ht, setTask, lookupS_setS]

/-- Witness for C9: the concrete resurrection trace, stopped just before
the task finishes; applying the theorem at that system state. -/
theorem c9_evict_discard_witness :
    (runI [IEv.acquireQuick 2023 "Monaco" "Race" true, IEv.taskBegin 0,
           IEv.evict (generate_session_id 2023 "Monaco" "Race")] initISys).tasks.get? 0 =
      some ⟨generate_session_id 2023 "Monaco" "Race",
            TaskPhase.fetching ⟨2023, "Monaco", "Race", false⟩ 0⟩ ∧
    lookupS (generate_session_id 2023 "Monaco" "Race")
        (istep (IEv.taskFinish 0 true)
          (runI [IEv.acquireQuick 2023 "Monaco" "Race" true, IEv.taskBegin 0,
                 IEv.evict (generate_session_id 2023 "Monaco" "Race")] initISys)).cache.metadata =
      some ⟨2023, "Monaco", "Race", true⟩ :=
  ⟨by decide,
   ((c9_evict_discard initState
      (runI [IEv.acquireQuick 2023 "Monaco" "Race" true, IEv.taskBegin 0,
             IEv.evict (generate_session_id 2023 "Monaco" "Race")] initISys)
      (generate_session_id 2023 "Monaco" "Race") 0).2.2
      ⟨2023, "Monaco", "Race", false⟩ 0 (by decide)).1⟩

end ApexAnalyst
